import Mathlib

/-!
Verification development for the resume-screener front-end API module
(`screenerAPI`).  The TypeScript source is shallowly embedded: strings are
processed as `List Char`, JavaScript regular-expression tests and global
matches are modelled by a small executable matcher over literal characters,
character classes, greedy/lazy repetition and word boundaries, and the
network-facing functions are modelled as pure functions of the responses
they would receive.  All definitions are executable.
-/

namespace Screener

/-- JS `\s` whitespace (ASCII part; the resume texts handled here are ASCII). -/
def isJsWs (c : Char) : Bool :=
  c == ' ' || c == '\t' || c == '\n' || c == '\r' ||
  c == Char.ofNat 11 || c == Char.ofNat 12

/-- JS `\w` word character: `[A-Za-z0-9_]`. -/
def isWordChar (c : Char) : Bool :=
  ('a' ≤ c && c ≤ 'z') || ('A' ≤ c && c ≤ 'Z') || ('0' ≤ c && c ≤ '9') || c == '_'

/-- JS `\d` digit character. -/
def isDigitCh (c : Char) : Bool := '0' ≤ c && c ≤ '9'

/-- ASCII lower-casing of one character, as JS `toLowerCase` acts on ASCII. -/
def lcChar (c : Char) : Char :=
  if 'A' ≤ c && c ≤ 'Z' then Char.ofNat (c.toNat + 32) else c

/-- ASCII lower-casing of a string (JS `String.prototype.toLowerCase`). -/
def jsToLower (s : String) : String := String.mk (s.toList.map lcChar)

/-- Character comparison used by the matcher: pattern characters are stored
lower-case; with `ci` (the regex `i` flag) the text character is folded first. -/
def litEq (ci : Bool) (p c : Char) : Bool :=
  if ci then lcChar c == p else c == p

/-- Try to consume the literal word `pat` from the front of `s`;
returns the rest on success. -/
def dropLits (ci : Bool) : List Char → List Char → Option (List Char)
  | [], s => some s
  | _ :: _, [] => none
  | p :: ps, c :: cs => if litEq ci p c then dropLits ci ps cs else none

/-- JS `String.prototype.includes`: `pat` occurs (case-sensitively) in `s`. -/
def subOccurs (pat : List Char) : List Char → Bool
  | [] => pat.isEmpty
  | c :: cs => (dropLits false pat (c :: cs)).isSome || subOccurs pat cs

/-- JS `s.includes(pat)` on strings. -/
def containsSub (s pat : String) : Bool := subOccurs pat.toList s.toList

/-- Model of `[...new Set(xs)]`: keep the first occurrence of each element. -/
def dedupFirst {α : Type} [DecidableEq α] : List α → List α
  | [] => []
  | x :: xs => x :: dedupFirst (xs.filter (fun y => !(decide (y = x))))
termination_by l => l.length
decreasing_by
  simp only [List.length_cons]
  exact Nat.lt_succ_of_le (List.length_filter_le _ _)

theorem dedupFirst_nil {α : Type} [DecidableEq α] : dedupFirst ([] : List α) = [] := by
  simp [dedupFirst]

theorem dedupFirst_cons {α : Type} [DecidableEq α] (x : α) (xs : List α) :
    dedupFirst (x :: xs) = x :: dedupFirst (xs.filter (fun y => !(decide (y = x)))) := by
  rw [dedupFirst]

theorem mem_of_mem_dedupFirst {α : Type} [DecidableEq α] {l : List α} {a : α}
    (ha : a ∈ dedupFirst l) : a ∈ l := by
  have key : ∀ (n : Nat) (l : List α), l.length ≤ n → ∀ a, a ∈ dedupFirst l → a ∈ l := by
    intro n
    induction n with
    | zero =>
      intro l hl a ha
      match l with
      | [] => simp [dedupFirst_nil] at ha
      | x :: xs => simp at hl
    | succ n ih =>
      intro l hl a ha
      match l with
      | [] => simp [dedupFirst_nil] at ha
      | x :: xs =>
        rw [dedupFirst_cons] at ha
        rcases List.mem_cons.mp ha with h1 | h1
        · exact h1 ▸ List.mem_cons_self x xs
        · have hle : (xs.filter (fun y => !(decide (y = x)))).length ≤ n := by
            have := List.length_filter_le (fun y => !(decide (y = x))) xs
            simp only [List.length_cons] at hl
            omega
          have := ih _ hle a h1
          exact List.mem_cons_of_mem x (List.mem_of_mem_filter this)
  exact key l.length l le_rfl a ha

theorem nodup_dedupFirst {α : Type} [DecidableEq α] (l : List α) :
    (dedupFirst l).Nodup := by
  have key : ∀ (n : Nat) (l : List α), l.length ≤ n → (dedupFirst l).Nodup := by
    intro n
    induction n with
    | zero =>
      intro l hl
      match l with
      | [] => simp [dedupFirst_nil]
      | x :: xs => simp at hl
    | succ n ih =>
      intro l hl
      match l with
      | [] => simp [dedupFirst_nil]
      | x :: xs =>
        rw [dedupFirst_cons]
        have hle : (xs.filter (fun y => !(decide (y = x)))).length ≤ n := by
          have := List.length_filter_le (fun y => !(decide (y = x))) xs
          simp only [List.length_cons] at hl
          omega
        refine List.nodup_cons.mpr ⟨?_, ih _ hle⟩
        intro hmem
        have hx := mem_of_mem_dedupFirst hmem
        have := List.of_mem_filter hx
        simp at this
  exact key l.length l le_rfl

theorem length_dedupFirst_le {α : Type} [DecidableEq α] (l : List α) :
    (dedupFirst l).length ≤ l.length := by
  have key : ∀ (n : Nat) (l : List α), l.length ≤ n → (dedupFirst l).length ≤ l.length := by
    intro n
    induction n with
    | zero =>
      intro l hl
      match l with
      | [] => simp [dedupFirst_nil]
      | x :: xs => simp at hl
    | succ n ih =>
      intro l hl
      match l with
      | [] => simp [dedupFirst_nil]
      | x :: xs =>
        rw [dedupFirst_cons]
        have hfle : (xs.filter (fun y => !(decide (y = x)))).length ≤ xs.length :=
          List.length_filter_le _ _
        have hle : (xs.filter (fun y => !(decide (y = x)))).length ≤ n := by
          simp only [List.length_cons] at hl
          omega
        have := ih _ hle
        simp only [List.length_cons]
        omega
  exact key l.length l le_rfl

/-!
### A small executable matcher for the regular expressions of the source

Every regular expression in the source is an alternation of simple
sequences built from literal characters, single-character classes with the
quantifiers `?`, `+`, `*` (greedy) or `*?` (lazy), an inner literal-word
alternation such as `(?:in|with|at)`, and `\b` word boundaries.  A pattern
is a `List Atom`; a whole regular expression is a `List (List Atom)` of
alternatives in source order.  Matching is nondeterministic: a step returns
the possible successor states in JS backtracking-priority order, so the
head of the result list of `runAtoms` is the match JS would produce.
A state is the previously consumed character (for `\b`) and the rest of
the text.
-/

inductive Atom where
  | lit (c : Char)
  | lits (ws : List (List Char))
  | cls (p : Char → Bool)
  | opt (p : Char → Bool)
  | starL (p : Char → Bool)
  | starG (p : Char → Bool)
  | plusG (p : Char → Bool)
  | wb

/-- The previous-character component after consuming from `s` down to `rest`. -/
def prevAfter (prev : Option Char) (s rest : List Char) : Option Char :=
  let k := s.length - rest.length
  if k = 0 then prev else (s.take k).getLast?

/-- States reachable by a lazy class star, fewest-consumed first. -/
def starStates (p : Char → Bool) : Option Char → List Char → List (Option Char × List Char)
  | prev, [] => [(prev, [])]
  | prev, c :: cs =>
    (prev, c :: cs) :: (if p c then starStates p (some c) cs else [])

/-- Word-boundary test between an optional previous character and the rest. -/
def atBoundary (prev : Option Char) (s : List Char) : Bool :=
  let pw := match prev with | none => false | some c => isWordChar c
  let nw := match s with | [] => false | c :: _ => isWordChar c
  pw != nw

/-- One matching step for a single atom, successor states in priority order. -/
def stepAtom (ci : Bool) (a : Atom) (st : Option Char × List Char) :
    List (Option Char × List Char) :=
  match a, st with
  | .lit pc, (_, s) =>
    match s with
    | [] => []
    | c :: cs => if litEq ci pc c then [(some c, cs)] else []
  | .lits ws, (prev, s) =>
    ws.filterMap (fun w =>
      (dropLits ci w s).map (fun rest => (prevAfter prev s rest, rest)))
  | .cls p, (_, s) =>
    match s with
    | [] => []
    | c :: cs => if p c then [(some c, cs)] else []
  | .opt p, (prev, s) =>
    (match s with
     | [] => []
     | c :: cs => if p c then [(some c, cs)] else []) ++ [(prev, s)]
  | .starL p, (prev, s) => starStates p prev s
  | .starG p, (prev, s) => (starStates p prev s).reverse
  | .plusG p, (_, s) =>
    match s with
    | [] => []
    | c :: cs => if p c then (starStates p (some c) cs).reverse else []
  | .wb, (prev, s) => if atBoundary prev s then [(prev, s)] else []

/-- Run a sequence of atoms from a state; resulting states in priority order. -/
def runAtoms (ci : Bool) : List Atom → (Option Char × List Char) →
    List (Option Char × List Char)
  | [], st => [st]
  | a :: rest, st => (stepAtom ci a st).flatMap (runAtoms ci rest)

/-- `RegExp.prototype.test`: does some alternative match at some position? -/
def searchHere (ci : Bool) (alts : List (List Atom)) : Option Char → List Char → Bool
  | prev, [] => alts.any (fun a => !(runAtoms ci a (prev, [])).isEmpty)
  | prev, c :: cs =>
    alts.any (fun a => !(runAtoms ci a (prev, c :: cs)).isEmpty) ||
    searchHere ci alts (some c) cs

/-- Regex test over a string. -/
def reTest (ci : Bool) (alts : List (List Atom)) (s : String) : Bool :=
  searchHere ci alts none s.toList

/-- The match JS would pick at the current position: the first successful
state of the first alternative that matches. -/
def firstMatchHere (ci : Bool) (alts : List (List Atom))
    (st : Option Char × List Char) : Option (Option Char × List Char) :=
  match alts with
  | [] => none
  | a :: rest =>
    match runAtoms ci a st with
    | st1 :: _ => some st1
    | [] => firstMatchHere ci rest st

/-- All matches of `String.prototype.match` with the `g` flag: repeatedly
take the leftmost, highest-priority match and continue after it.
`fuel` bounds the scan (call with `s.length + 1`). -/
def scanAll (ci : Bool) (alts : List (List Atom)) :
    Nat → Option Char → List Char → List (List Char)
  | 0, _, _ => []
  | fuel + 1, prev, s =>
    match firstMatchHere ci alts (prev, s) with
    | some (prevA, rest) =>
      let k := s.length - rest.length
      if k = 0 then
        match s with
        | [] => []
        | c :: cs => scanAll ci alts fuel (some c) cs
      else (s.take k) :: scanAll ci alts fuel prevA rest
    | none =>
      match s with
      | [] => []
      | c :: cs => scanAll ci alts fuel (some c) cs

/-- JS `s.match(re)` with the `g` flag, as the list of matched substrings
(`[]` models a `null` result). -/
def jsMatch (ci : Bool) (alts : List (List Atom)) (s : String) : List String :=
  (scanAll ci alts (s.toList.length + 1) none s.toList).map String.mk

/-- Literal-word pattern: one atom per character (stored lower-case). -/
def lw (s : String) : List Atom := s.toList.map Atom.lit

/-- The class `[\w-]`. -/
def isWordDash (c : Char) : Bool := isWordChar c || c == '-'

/-- The class `[\d,]`. -/
def isDigitComma (c : Char) : Bool := isDigitCh c || c == ','

/-- The class `[^.]`. -/
def notDot (c : Char) : Bool := !(c == '.')

/-!
### Section 1 of the source: types
-/

/-- `PredictionResponse` of the source (`confidence` is a number in `[0,1]`;
it is only passed through, never computed with, so it is modelled as `Rat`). -/
structure PredictionResponse where
  predicted_role : String
  confidence : Rat
  processed_text_length : Nat
deriving DecidableEq

inductive Priority where
  | High
  | Medium
  | Low
deriving DecidableEq

/-- One entry of `AIAnalysisResponse.improvements`. -/
structure Improvement where
  priority : Priority
  suggestion : String
  category : String
deriving DecidableEq

/-- `AIAnalysisResponse` of the source. -/
structure AIAnalysisResponse where
  score : Nat
  strengths : List String
  improvements : List Improvement
  missing_elements : List String
  role_specific_advice : List String
  contextual_insights : List String
deriving DecidableEq

/-- The mutable `analysisResults` object of `performNLPAnalysis`. -/
structure NLPResults where
  skills : List String
  experience_level : String
  strengths : List String
  suggestions : List String
deriving DecidableEq

/-- Result type of `validateFile` / `validateText`. -/
structure ValidationResult where
  isValid : Bool
  error : Option String
deriving DecidableEq

/-!
### Section 5 of the source: validation utilities
-/

/-- `s.endsWith(suffix)`. -/
def strEndsWith (s suffix : String) : Bool :=
  (dropLits false suffix.toList.reverse s.toList.reverse).isSome

/-- `validateFile` translated from the source: extension check first
(`allowedTypes = ['.pdf']`, on the lower-cased name), then the `> 10MB`
check, then the `=== 0` check. -/
def validateFile (name : String) (size : Nat) : ValidationResult :=
  let allowedTypes : List String := [".pdf"]
  let maxSize : Nat := 10 * 1024 * 1024
  let fileExt := jsToLower name
  let hasValidExtension := allowedTypes.any (fun ext => strEndsWith fileExt ext)
  if !hasValidExtension then
    { isValid := false
      error := some ("Invalid file type. Please upload one of: " ++
        String.intercalate ", " allowedTypes) }
  else if size > maxSize then
    { isValid := false, error := some "File size exceeds 10MB limit" }
  else if size = 0 then
    { isValid := false, error := some "Empty file detected" }
  else
    { isValid := true, error := none }

/-- `text.replace(/\s+/g, ' ')`: collapse each maximal whitespace run to a
single space (the last character of the run is replaced, the others dropped,
which yields the same string). -/
def collapseWs : List Char → List Char
  | [] => []
  | [c] => [if isJsWs c then ' ' else c]
  | a :: b :: rest =>
    if isJsWs a && isJsWs b then collapseWs (b :: rest)
    else (if isJsWs a then ' ' else a) :: collapseWs (b :: rest)

/-- `text.replace(/\s+/g, ' ').trim()` (after collapsing, the only
whitespace left is the plain space). -/
def cleanText (s : String) : String :=
  let collapsed := collapseWs s.toList
  let trimmed := ((collapsed.dropWhile (fun c => c == ' ')).reverse.dropWhile
    (fun c => c == ' ')).reverse
  String.mk trimmed

/-!
### Section 2 of the source: `predictFromText`

The single network call is modelled by the response the endpoint would
give.  The second component of the result counts the requests issued.
-/

/-- Possible outcomes of the one `fetch` in `predictFromText`. -/
inductive PredOutcome where
  | ok (r : PredictionResponse)
  | httpErr (status : Nat) (detail : Option String)
  | netErr (msg : String)

/-- `predictFromText` translated from the source: clean the text, fail
locally below 50 characters (the thrown error is re-wrapped by the outer
`catch` with the `Text prediction failed: ` message), otherwise issue
exactly one request and map the response. -/
def predictFromText (text : String) (server : PredOutcome) :
    Except String PredictionResponse × Nat :=
  let cleanedText := cleanText text
  if cleanedText.length < 50 then
    (.error "Text prediction failed: Please provide at least 50 characters of resume text.", 0)
  else
    match server with
    | .ok r => (.ok r, 1)
    | .httpErr status detail =>
      let base := "HTTP " ++ toString status ++ ": Text prediction failed"
      (.error ("Text prediction failed: " ++ detail.getD base), 1)
    | .netErr msg => (.error ("Text prediction failed: " ++ msg), 1)

/-!
### Section 3 of the source: `callHuggingFaceAPI`

An attempt's outcome is either a parsed-success body, a non-ok HTTP status
code, or a transport-level exception; `resp n` is the outcome the `n`-th
request would have.  The event trace records requests and `setTimeout`
delays in order.
-/

/-- The JSON body of a successful inference response. -/
inductive HFBody where
  | arr (generated_text : Option String)
  | str (s : String)
  | other

/-- Outcome of one attempt: `ok` is `response.ok`, `status` a non-ok HTTP
status with its code, `exn` a transport-level exception. -/
inductive HFResponse where
  | ok (b : HFBody)
  | status (code : Nat)
  | exn

inductive HFEvent where
  | request
  | delay (ms : Nat)
deriving DecidableEq, BEq

/-- JS `String.prototype.trim`. -/
def jsTrim (s : String) : String :=
  String.mk (((s.toList.dropWhile isJsWs).reverse.dropWhile isJsWs).reverse)

/-- Parsing of a successful response body in `callHuggingFaceAPI`. -/
def parseHFBody : HFBody → Option String
  | .arr (some t) => some (jsTrim t)
  | .arr none => none
  | .str s => some (jsTrim s)
  | .other => none

/-- The `for (let attempt = 0; attempt < maxRetries; attempt++)` loop of
`callHuggingFaceAPI`; `fuel = maxRetries - attempt` at each entry. -/
def hfLoop (resp : Nat → HFResponse) (maxRetries : Nat) :
    Nat → Nat → Option String × List HFEvent
  | _, 0 => (none, [])
  | attempt, fuel + 1 =>
    match resp attempt with
    | .ok b => (parseHFBody b, [.request])
    | .status code =>
      if code = 503 then
        let r := hfLoop resp maxRetries (attempt + 1) fuel
        (r.1, .request :: .delay (3000 * (attempt + 1)) :: r.2)
      else (none, [.request])
    | .exn =>
      if attempt = maxRetries - 1 then (none, [.request])
      else
        let r := hfLoop resp maxRetries (attempt + 1) fuel
        (r.1, .request :: .delay 1500 :: r.2)

/-- `callHuggingFaceAPI` translated from the source (`maxRetries = 2`).
`model` and `prompt` only shape the request, never the control flow. -/
def callHuggingFaceAPI (model prompt : String) (resp : Nat → HFResponse) :
    Option String × List HFEvent :=
  let _ := model
  let _ := prompt
  let maxRetries := 2
  hfLoop resp maxRetries 0 maxRetries

/-!
### Section 4 of the source: contextual helper functions
-/

def dataSkills : List String :=
  ["python", "r", "sql", "pandas", "numpy", "scikit-learn", "tensorflow",
   "pytorch", "tableau", "power bi", "spark", "hadoop", "statistics",
   "machine learning"]

def softwareSkills : List String :=
  ["javascript", "python", "java", "react", "node.js", "git", "api",
   "database", "testing", "agile", "docker", "kubernetes"]

def devopsSkills : List String :=
  ["docker", "kubernetes", "aws", "azure", "jenkins", "ci/cd", "terraform",
   "ansible", "linux", "monitoring", "automation"]

def frontendSkills : List String :=
  ["javascript", "react", "vue", "angular", "html", "css", "typescript",
   "webpack", "sass", "responsive design"]

def backendSkills : List String :=
  ["node.js", "python", "java", "api", "database", "mongodb", "postgresql",
   "redis", "microservices"]

def mobileSkills : List String :=
  ["react native", "flutter", "swift", "kotlin", "ios", "android",
   "mobile development"]

/-- The `roleSkillMap` object, entries in source (insertion) order. -/
def roleSkillMap : List (String × List String) :=
  [("data", dataSkills), ("software", softwareSkills), ("devops", devopsSkills),
   ("frontend", frontendSkills), ("backend", backendSkills), ("mobile", mobileSkills)]

/-- `getRoleSpecificSkills`: first bucket whose key is a substring of the
lower-cased role, defaulting to the `software` bucket. -/
def getRoleSpecificSkills (role : String) : List String :=
  let roleLower := jsToLower role
  match roleSkillMap.find? (fun kv => containsSub roleLower kv.1) with
  | some kv => kv.2
  | none => softwareSkills

/-- The regex `\b<skill>\b` with the `i` flag (every special character of
the skill is escaped in the source, so the skill is matched literally). -/
def wordBoundedTest (text skill : String) : Bool :=
  reTest true [[Atom.wb] ++ lw skill ++ [Atom.wb]] text

/-- `findSkillsInText` translated from the source. -/
def findSkillsInText (text : String) (roleSkills : List String) : List String :=
  roleSkills.filter (fun skill => wordBoundedTest text skill)

/-- `/\d+%|\d+x|increased|improved|reduced|optimized/g` (case-sensitive). -/
def quantScoreAlts : List (List Atom) :=
  [[.plusG isDigitCh, .lit '%'], [.plusG isDigitCh, .lit 'x'],
   lw "increased", lw "improved", lw "reduced", lw "optimized"]

/-- `/lead|manage|mentor|supervise/g` (case-sensitive). -/
def leadScoreAlts : List (List Atom) :=
  [lw "lead", lw "manage", lw "mentor", lw "supervise"]

/-- `/bachelor|master|phd|certified/g` (case-sensitive). -/
def eduScoreAlts : List (List Atom) :=
  [lw "bachelor", lw "master", lw "phd", lw "certified"]

/-- `calculateContextualScore` translated from the source.  The running
`score` is a sum of non-negative integers, so `Math.round` is the identity
and `Nat` is exact. -/
def calculateContextualScore (text role : String) (skills : List String)
    (experienceLevel : String) : Nat :=
  let roleSkills := getRoleSpecificSkills role
  let skillMatch := (skills.filter (fun skill => roleSkills.contains skill)).length
  let score := 50 + min (skillMatch * 8) 30
    + (if experienceLevel = "Senior-level" then 15
       else if experienceLevel = "Mid-level" then 10 else 5)
    + (if reTest false quantScoreAlts text then 10 else 0)
    + (if reTest false leadScoreAlts text then 8 else 0)
    + (if reTest false eduScoreAlts text then 5 else 0)
  min score 100

/-- `/\d+%|\d+x|\$\d+|increased.*?\d+|improved.*?\d+/gi`, used in
`generateContextualStrengths` only as an existence test.  JS `.` excludes
line terminators. -/
def achievementsAlts : List (List Atom) :=
  [[.plusG isDigitCh, .lit '%'], [.plusG isDigitCh, .lit 'x'],
   [.lit '$', .plusG isDigitCh],
   lw "increased" ++ [.starL (fun c => !(c == '\n') && !(c == '\r')), .plusG isDigitCh],
   lw "improved" ++ [.starL (fun c => !(c == '\n') && !(c == '\r')), .plusG isDigitCh]]

/-- `generateContextualStrengths` translated from the source.  The JS
truthiness test `s && s.length > 15` on a string is `!s.isEmpty &&
15 < s.length`. -/
def generateContextualStrengths (text : String) (skills : List String)
    (nlpResults : NLPResults) (role : String) : List String :=
  let _ := role
  let strengths : List String :=
    (if nlpResults.strengths.length > 0 then nlpResults.strengths.take 2 else []) ++
    (if skills.length > 0 then
      ["Demonstrated expertise in key areas like " ++
        String.intercalate ", " (skills.take 3) ++ "."]
     else []) ++
    (if !nlpResults.experience_level.isEmpty then
      ["Profile aligns with an " ++ nlpResults.experience_level ++ " professional."]
     else []) ++
    (if !(jsMatch true achievementsAlts text).isEmpty then
      ["Strong track record of delivering measurable achievements and results."]
     else [])
  ((dedupFirst strengths).filter
    (fun s => !s.isEmpty && decide (15 < s.length))).take 4

/-- The 18 boolean flags of `detectContentElements`. -/
structure ContentElements where
  hasGitHub : Bool
  hasPortfolio : Bool
  hasLinkedIn : Bool
  hasLiveProjects : Bool
  hasQuantifiableResults : Bool
  hasProjectExperience : Bool
  hasLeadership : Bool
  hasCertifications : Bool
  hasEducation : Bool
  hasWorkExperience : Bool
  hasAPIExperience : Bool
  hasVersionControl : Bool
  hasTesting : Bool
  hasCloudExperience : Bool
  hasDatabaseExperience : Bool
  hasMLExperience : Bool
  hasDataViz : Bool
  hasStatistics : Bool
deriving DecidableEq

/-- `detectContentElements` translated from the source.  The source computes
`text = resumeText.toLowerCase()` but never uses it: every regex runs on
`resumeText` with the `i` flag, which the matcher's `ci` argument models. -/
def detectContentElements (resumeText : String) : ContentElements :=
  { hasGitHub := reTest true
      [lw "github.com/" ++ [.plusG isWordDash], lw "github.io",
       lw "git." ++ [.plusG isWordDash],
       lw "github" ++ [.starG isJsWs, .cls (fun c => c == ':' || c == '/')]] resumeText
    hasPortfolio := reTest true
      [lw "portfolio", lw "personal" ++ [.starG isJsWs] ++ lw "website",
       lw "my" ++ [.starG isJsWs] ++ lw "website",
       lw "website" ++ [.starG isJsWs, .lit ':']] resumeText
    hasLinkedIn := reTest true
      [lw "linkedin.com/in/",
       lw "linkedin" ++ [.starG isJsWs] ++ lw "profile"] resumeText
    hasLiveProjects := reTest true
      [lw "live" ++ [.starG isJsWs] ++ lw "project", lw "deployed",
       lw "production", lw "hosted", lw "demo", lw "url", lw "link",
       lw "website"] resumeText
    hasQuantifiableResults := reTest true
      [[.plusG isDigitCh, .lit '%'], [.plusG isDigitCh, .lit '+'],
       [.lit '$', .plusG isDigitComma],
       lw "increased" ++ [.plusG isJsWs] ++ lw "by" ++ [.plusG isJsWs, .plusG isDigitCh],
       lw "improved" ++ [.plusG isJsWs] ++ lw "by" ++ [.plusG isJsWs, .plusG isDigitCh],
       lw "reduced" ++ [.plusG isJsWs] ++ lw "by" ++ [.plusG isJsWs, .plusG isDigitCh],
       lw "optimized" ++ [.plusG isJsWs] ++ lw "by" ++ [.plusG isJsWs, .plusG isDigitCh],
       [.plusG isDigitCh, .lit 'x', .plusG isJsWs]] resumeText
    hasProjectExperience := reTest true
      [lw "project" ++ [.opt (fun c => c == 's'), .starG isJsWs, .lit ':'],
       lw "built" ++ [.plusG isJsWs], lw "developed" ++ [.plusG isJsWs],
       lw "created" ++ [.plusG isJsWs], lw "implemented" ++ [.plusG isJsWs],
       lw "designed" ++ [.plusG isJsWs], lw "launched"] resumeText
    hasLeadership := reTest true
      [lw "lead" ++ [.plusG isJsWs], lw "led" ++ [.plusG isJsWs],
       lw "manage" ++ [.opt (fun c => c == 'd'), .plusG isJsWs],
       lw "mentor" ++ [.opt (fun c => c == 'e' || c == 'd'), .plusG isJsWs],
       lw "supervise" ++ [.opt (fun c => c == 'd'), .plusG isJsWs],
       lw "team" ++ [.starG isJsWs] ++ lw "lead",
       lw "project" ++ [.starG isJsWs] ++ lw "manager"] resumeText
    hasCertifications := reTest true
      [lw "certified", lw "certification", lw "certificate",
       lw "aws" ++ [.plusG isJsWs] ++ lw "certified",
       lw "gcp" ++ [.plusG isJsWs] ++ lw "certified"] resumeText
    hasEducation := reTest true
      [lw "bachelor", lw "master", lw "phd", lw "degree", lw "university",
       lw "college", lw "graduated", lw "education", lw "b.s.", lw "m.s."] resumeText
    hasWorkExperience := reTest true
      [lw "experience", lw "worked" ++ [.plusG isJsWs] ++ lw "at",
       lw "employed" ++ [.plusG isJsWs] ++ lw "at", lw "internship",
       lw "intern" ++ [.plusG isJsWs] ++ lw "at",
       lw "software" ++ [.plusG isJsWs] ++ lw "engineer",
       lw "data" ++ [.plusG isJsWs] ++ lw "scientist"] resumeText
    hasAPIExperience := reTest true
      [[Atom.wb] ++ lw "api" ++ [Atom.wb],
       lw "rest" ++ [.starG isJsWs] ++ lw "api", lw "restful", lw "graphql",
       lw "microservice", lw "web" ++ [.starG isJsWs] ++ lw "service"] resumeText
    hasVersionControl := reTest true
      [lw "git" ++ [Atom.wb], lw "github", lw "gitlab", lw "bitbucket",
       lw "version" ++ [.starG isJsWs] ++ lw "control",
       lw "source" ++ [.starG isJsWs] ++ lw "control"] resumeText
    hasTesting := reTest true
      [lw "test", lw "testing", lw "unit" ++ [.starG isJsWs] ++ lw "test",
       lw "integration" ++ [.starG isJsWs] ++ lw "test", lw "tdd", lw "jest",
       lw "pytest", lw "junit"] resumeText
    hasCloudExperience := reTest true
      [lw "aws", lw "azure", lw "gcp", lw "google" ++ [.starG isJsWs] ++ lw "cloud",
       lw "docker", lw "kubernetes", lw "container", lw "ec2", lw "s3",
       lw "lambda"] resumeText
    hasDatabaseExperience := reTest true
      [lw "database", lw "sql", lw "mysql", lw "postgresql", lw "mongodb",
       lw "nosql", lw "redis"] resumeText
    hasMLExperience := reTest true
      [lw "machine" ++ [.starG isJsWs] ++ lw "learning", lw "ml" ++ [Atom.wb],
       lw "artificial" ++ [.starG isJsWs] ++ lw "intelligence",
       lw "ai" ++ [Atom.wb], lw "deep" ++ [.starG isJsWs] ++ lw "learning",
       lw "neural" ++ [.starG isJsWs] ++ lw "network", lw "nlp",
       lw "tensorflow", lw "pytorch", lw "scikit-learn"] resumeText
    hasDataViz := reTest true
      [lw "visualization", lw "tableau", lw "power" ++ [.starG isJsWs] ++ lw "bi",
       lw "d3.js", lw "plotly", lw "matplotlib", lw "seaborn",
       lw "dashboard"] resumeText
    hasStatistics := reTest true
      [lw "statistics", lw "statistical", lw "regression", lw "hypothesis",
       lw "a/b" ++ [.starG isJsWs] ++ lw "test", lw "analytics"] resumeText }

/-- `generateTargetedImprovements` translated from the source (the `async`
wrapper has no effect: the body is pure).  Deduplication keeps the first
improvement carrying each suggestion, then the list is capped at 5. -/
def generateTargetedImprovements (resumeText role : String)
    (skills : List String) (nlpResults : NLPResults) : List Improvement :=
  let _ := skills
  let contentElements := detectContentElements resumeText
  let roleLower := jsToLower role
  let improvements : List Improvement :=
    (if !contentElements.hasQuantifiableResults then
      [{ priority := .High
         suggestion := "Strengthen your impact by adding metrics to your achievements (e.g., \"reduced latency by 30%\", \"increased user engagement by 15%\")."
         category := "Impact & Results" }]
     else []) ++
    (if !contentElements.hasGitHub &&
        (containsSub roleLower "software" || containsSub roleLower "data") then
      [{ priority := .High
         suggestion := "A strong GitHub profile is essential. Add a link and feature 2-3 well-documented projects."
         category := "Professional Presence" }]
     else []) ++
    (if !contentElements.hasProjectExperience &&
        decide (nlpResults.experience_level = "Entry-level") then
      [{ priority := .High
         suggestion := "Build and showcase personal projects to demonstrate practical skills beyond coursework."
         category := "Experience" }]
     else []) ++
    (if containsSub roleLower "data" && !contentElements.hasDataViz then
      [{ priority := .Medium
         suggestion := "Showcase your data storytelling skills by adding projects with visualizations or dashboards (e.g., using Tableau, Power BI, or Plotly)."
         category := "Technical Skills" }]
     else []) ++
    (if containsSub roleLower "software" && !contentElements.hasTesting then
      [{ priority := .Medium
         suggestion := "Mention specific testing practices or frameworks used in your projects (e.g., unit tests with Jest, integration testing)."
         category := "Technical Skills" }]
     else [])
  let uniqueSuggestions :=
    (dedupFirst (improvements.map Improvement.suggestion)).filterMap
      (fun s => improvements.find? (fun i => decide (i.suggestion = s)))
  uniqueSuggestions.take 5

/-- `identifyMissingElements` translated from the source. -/
def identifyMissingElements (text role : String) (skills : List String) :
    List String :=
  let _ := skills
  let contentElements := detectContentElements text
  let roleLower := jsToLower role
  let missing : List String :=
    (if !contentElements.hasQuantifiableResults then
      ["Quantifiable achievements with metrics"] else []) ++
    (if !contentElements.hasProjectExperience then
      ["Dedicated projects section"] else []) ++
    (if containsSub roleLower "software" && !contentElements.hasVersionControl then
      ["Version control (Git/GitHub)"] else []) ++
    (if containsSub roleLower "data" && !contentElements.hasMLExperience then
      ["Machine learning project experience"] else [])
  (dedupFirst missing).take 4

/-- `generateRoleSpecificAdvice` translated from the source. -/
def generateRoleSpecificAdvice (text role : String) (skills : List String)
    (experienceLevel : String) : List String :=
  let _ := skills
  let contentElements := detectContentElements text
  let roleLower := jsToLower role
  let advice : List String :=
    (if containsSub roleLower "data" && !contentElements.hasMLExperience then
      ["Focus on building an end-to-end machine learning project, from data cleaning to model deployment."]
     else []) ++
    (if containsSub roleLower "software" && !contentElements.hasAPIExperience then
      ["Gain experience with API development (REST or GraphQL) as it is a core skill for most developer roles."]
     else []) ++
    (if decide (experienceLevel = "Entry-level") then
      ["Contribute to an open-source project to gain collaborative development experience and enhance your GitHub profile."]
     else [])
  (dedupFirst advice).take 3

/-- `Math.round((m / n) * 100)` for natural `m ≤ n`, `0 < n`, computed
exactly: `floor(100*m/n + 1/2)`.  For every reachable bucket size
(7, 9, 10, 11, 12, 14) the value `100*m/n` is never a half-integer and is
far from one, so exact rational rounding agrees with the source's
floating-point rounding. -/
def jsRound100 (m n : Nat) : Nat := (200 * m + n) / (2 * n)

/-- `generateContextualInsights` translated from the source. -/
def generateContextualInsights (nlpResults : NLPResults) (role : String)
    (skills : List String) (resumeText : String) : List String :=
  let insights : List String :=
    (if !nlpResults.experience_level.isEmpty then
      ["Your resume appears to be at an " ++ nlpResults.experience_level ++
        " experience level."]
     else []) ++
    (let roleSkills := getRoleSpecificSkills role
     if roleSkills.length > 0 then
       let matchCount := (skills.filter (fun s => roleSkills.contains s)).length
       let matchPercentage := jsRound100 matchCount roleSkills.length
       ["Your skills show a ~" ++ toString matchPercentage ++
         "% alignment with the key technologies for a " ++ role ++ " role."]
     else []) ++
    (if (detectContentElements resumeText).hasQuantifiableResults then
      ["Your use of metrics to describe achievements is a strong positive signal to recruiters."]
     else [])
  (dedupFirst insights).take 3

/-!
### Section 3 of the source: the analysis pipeline
-/

/-- The initial (all-empty) `analysisResults` object. -/
def emptyNLPResults : NLPResults := ⟨[], "", [], []⟩

/-- The fixed `commonSkills` list of step 1 of `performNLPAnalysis`. -/
def commonSkills : List String :=
  ["python", "java", "javascript", "react", "node", "sql", "aws", "docker",
   "kubernetes", "git", "machine learning", "data analysis", "pandas",
   "numpy", "scikit-learn", "tensorflow", "pytorch", "api", "flask",
   "streamlit", "power bi", "tableau"]

/-- The four `strengthPatterns` regexes of step 3, e.g.
`/strong.*?(?:in|with|at)\s+([^.]+)/gi` (the capture group does not affect
the matched substrings returned by `match` with the `g` flag). -/
def strengthPatterns : List (List (List Atom)) :=
  [[lw "strong" ++ [.starL (fun c => !(c == '\n') && !(c == '\r')),
      .lits [['i','n'], ['w','i','t','h'], ['a','t']], .plusG isJsWs, .plusG notDot]],
   [lw "excellent" ++ [.starL (fun c => !(c == '\n') && !(c == '\r')),
      .lits [['i','n'], ['w','i','t','h'], ['a','t']], .plusG isJsWs, .plusG notDot]],
   [lw "experienced" ++ [.starL (fun c => !(c == '\n') && !(c == '\r')),
      .lits [['i','n'], ['w','i','t','h'], ['a','t']], .plusG isJsWs, .plusG notDot]],
   [lw "skilled" ++ [.starL (fun c => !(c == '\n') && !(c == '\r')),
      .lits [['i','n'], ['w','i','t','h'], ['a','t']], .plusG isJsWs, .plusG notDot]]]

/-- The `improvementKeywords` of step 4. -/
def improvementKeywords : List String :=
  ["need", "lack", "missing", "should add", "recommend", "suggest", "improve"]

/-- `performNLPAnalysis` translated from the source.  Each of the four
sequential inference calls is modelled by the `Option String` it returns
(`none` for `null`); the JS truthiness guard `if (response)` also skips an
empty string.  The four guarded blocks update `analysisResults` in order. -/
def performNLPAnalysis (resumeText predictedRole : String)
    (skillsResp expResp strengthsResp gapResp : Option String) : NLPResults :=
  let _ := predictedRole
  let r0 := emptyNLPResults
  let r1 :=
    match skillsResp with
    | some skillsResponse =>
      if skillsResponse.isEmpty then r0
      else
        let skillsText := jsToLower skillsResponse
        { r0 with skills := commonSkills.filter (fun skill =>
            wordBoundedTest skillsText skill ||
            wordBoundedTest (jsToLower resumeText) skill) }
    | none => r0
  let r2 :=
    match expResp with
    | some experienceResponse =>
      if experienceResponse.isEmpty then r1
      else
        let expText := jsToLower experienceResponse
        if containsSub expText "senior" || containsSub expText "lead" ||
            containsSub expText "manager" then
          { r1 with experience_level := "Senior-level" }
        else if containsSub expText "mid" || containsSub expText "intermediate" then
          { r1 with experience_level := "Mid-level" }
        else
          { r1 with experience_level := "Entry-level" }
    | none => r1
  let r3 :=
    match strengthsResp with
    | some strengthsResponse =>
      if strengthsResponse.isEmpty then r2
      else
        { r2 with strengths := r2.strengths ++
            strengthPatterns.flatMap (fun pattern =>
              let found := jsMatch true pattern strengthsResponse
              if found.isEmpty then [] else found.take 2) }
    | none => r2
  let r4 :=
    match gapResp with
    | some gapResponse =>
      if gapResponse.isEmpty then r3
      else
        { r3 with suggestions := r3.suggestions ++
            improvementKeywords.flatMap (fun keyword =>
              (jsMatch true [lw keyword ++ [.starG notDot]] gapResponse).take 1) }
    | none => r3
  r4

/-- `analyzeResumeContextually` translated from the source; the NLP results
of the four inference calls enter as a parameter. -/
def analyzeResumeContextually (resumeText predictedRole : String)
    (nlpResults : NLPResults) : AIAnalysisResponse :=
  let text := jsToLower resumeText
  let roleSpecificSkills := getRoleSpecificSkills predictedRole
  let detectedSkills :=
    dedupFirst (nlpResults.skills ++ findSkillsInText text roleSpecificSkills)
  { score := calculateContextualScore text predictedRole detectedSkills
      nlpResults.experience_level
    strengths := generateContextualStrengths text detectedSkills nlpResults
      predictedRole
    improvements := generateTargetedImprovements resumeText predictedRole
      detectedSkills nlpResults
    missing_elements := identifyMissingElements text predictedRole detectedSkills
    role_specific_advice := generateRoleSpecificAdvice text predictedRole
      detectedSkills nlpResults.experience_level
    contextual_insights := generateContextualInsights nlpResults predictedRole
      detectedSkills resumeText }

/-- The fixed fallback report of `getResumeImprovements`. -/
def fallbackReport : AIAnalysisResponse :=
  { score := 60
    strengths := ["Resume submitted for analysis"]
    improvements := [{ priority := .Medium
                       suggestion := "AI analysis is temporarily unavailable. Please try again later."
                       category := "System" }]
    missing_elements := []
    role_specific_advice := []
    contextual_insights := ["Analysis will be available shortly"] }

/-- `getResumeImprovements` translated from the source: the awaited
contextual pipeline either returns a report or throws; any thrown error is
caught and replaced by the fixed fallback report. -/
def getResumeImprovements (pipeline : Except String AIAnalysisResponse) :
    AIAnalysisResponse :=
  match pipeline with
  | .ok r => r
  | .error _ => fallbackReport

/-!
### Shared lemmas about the list-shaping combinators
-/

theorem nodup_dedup_take {α : Type} [DecidableEq α] (l : List α) (n : Nat) :
    ((dedupFirst l).take n).Nodup :=
  (nodup_dedupFirst l).sublist (List.take_sublist n _)

theorem nodup_dedup_filter_take {α : Type} [DecidableEq α] (l : List α)
    (p : α → Bool) (n : Nat) : (((dedupFirst l).filter p).take n).Nodup :=
  ((nodup_dedupFirst l).filter p).sublist (List.take_sublist n _)

theorem length_take_le_length {α : Type} (l : List α) (n : Nat) :
    (l.take n).length ≤ l.length :=
  (List.take_sublist n l).length_le

/-- The suggestions of the picked improvements form a sublist of the
deduplicated suggestion list. -/
theorem pick_map_suggestion_sublist (l : List Improvement) :
    ∀ u : List String,
      ((u.filterMap (fun s => l.find? (fun i => decide (i.suggestion = s)))).map
        Improvement.suggestion).Sublist u := by
  intro u
  induction u with
  | nil => simp
  | cons s u ih =>
    cases hf : l.find? (fun i => decide (i.suggestion = s)) with
    | none =>
      simp only [List.filterMap_cons, hf]
      exact ih.cons s
    | some i =>
      have hs : i.suggestion = s := by
        have := List.find?_some hf
        exact of_decide_eq_true this
      simp only [List.filterMap_cons, hf, List.map_cons, hs]
      exact ih.cons₂ s

theorem targeted_improvements_sugg_nodup (resumeText role : String)
    (skills : List String) (nlpResults : NLPResults) :
    ((generateTargetedImprovements resumeText role skills nlpResults).map
      Improvement.suggestion).Nodup := by
  unfold generateTargetedImprovements
  apply List.Nodup.sublist
  · exact ((List.take_sublist 5 _).map Improvement.suggestion).trans
      (pick_map_suggestion_sublist _ _)
  · exact nodup_dedupFirst _

theorem targeted_improvements_nodup (resumeText role : String)
    (skills : List String) (nlpResults : NLPResults) :
    (generateTargetedImprovements resumeText role skills nlpResults).Nodup :=
  (targeted_improvements_sugg_nodup resumeText role skills nlpResults).of_map

theorem targeted_improvements_len_le (resumeText role : String)
    (skills : List String) (nlpResults : NLPResults) :
    (generateTargetedImprovements resumeText role skills nlpResults).length ≤ 5 := by
  unfold generateTargetedImprovements
  exact List.length_take_le 5 _

theorem strengths_nodup (text : String) (skills : List String)
    (nlpResults : NLPResults) (role : String) :
    (generateContextualStrengths text skills nlpResults role).Nodup := by
  unfold generateContextualStrengths
  exact nodup_dedup_filter_take _ _ 4

theorem strengths_len_le (text : String) (skills : List String)
    (nlpResults : NLPResults) (role : String) :
    (generateContextualStrengths text skills nlpResults role).length ≤ 4 := by
  unfold generateContextualStrengths
  exact List.length_take_le 4 _

theorem missing_nodup (text role : String) (skills : List String) :
    (identifyMissingElements text role skills).Nodup := by
  unfold identifyMissingElements
  exact nodup_dedup_take _ 4

theorem missing_len_le (text role : String) (skills : List String) :
    (identifyMissingElements text role skills).length ≤ 4 := by
  unfold identifyMissingElements
  exact List.length_take_le 4 _

theorem advice_nodup (text role : String) (skills : List String)
    (experienceLevel : String) :
    (generateRoleSpecificAdvice text role skills experienceLevel).Nodup := by
  unfold generateRoleSpecificAdvice
  exact nodup_dedup_take _ 3

theorem advice_len_le (text role : String) (skills : List String)
    (experienceLevel : String) :
    (generateRoleSpecificAdvice text role skills experienceLevel).length ≤ 3 := by
  unfold generateRoleSpecificAdvice
  exact List.length_take_le 3 _

theorem insights_nodup (nlpResults : NLPResults) (role : String)
    (skills : List String) (resumeText : String) :
    (generateContextualInsights nlpResults role skills resumeText).Nodup := by
  unfold generateContextualInsights
  exact nodup_dedup_take _ 3

theorem insights_len_le (nlpResults : NLPResults) (role : String)
    (skills : List String) (resumeText : String) :
    (generateContextualInsights nlpResults role skills resumeText).length ≤ 3 := by
  unfold generateContextualInsights
  exact List.length_take_le 3 _

theorem score_le_100 (text role : String) (skills : List String)
    (experienceLevel : String) :
    calculateContextualScore text role skills experienceLevel ≤ 100 := by
  unfold calculateContextualScore
  exact Nat.min_le_right _ _

/-!
### Claims
-/

/-- The resume text of the C1 scenario: it contains the substrings
`increased revenue by 25%` and `led a team of 5` and no other
scoring-relevant phrases. -/
def c1Text : String := "increased revenue by 25% and led a team of 5"

/-- Claim C1 fails on the code: with no matched skills and an empty
experience level, the claimed score `50 + 5 + 10 + 8` (both bonuses
applied) is not what `calculateContextualScore` returns for the scenario
text, because the leadership regex `/lead|manage|mentor|supervise/` does
not match `led`. -/
theorem c1_counterexample :
    calculateContextualScore c1Text "Software Engineer" [] "" ≠ 50 + 5 + 10 + 8 := by
  decide

/-- Claim C1 (amended): for the scenario text and role `Software Engineer`,
`calculateContextualScore` applies the +10 quantifiable-impact bonus but
not the +8 leadership bonus (the score is `50 + 5 + 10 = 65`), while
`detectContentElements` does report both `hasQuantifiableResults` and
`hasLeadership` as true. -/
theorem c1_amended_bonuses_and_flags :
    calculateContextualScore c1Text "Software Engineer" [] "" = 50 + 5 + 10 ∧
    (detectContentElements c1Text).hasQuantifiableResults = true ∧
    (detectContentElements c1Text).hasLeadership = true := by
  refine ⟨by decide, by decide, by decide⟩

/-- Claim C3 fails on the code: the fallback report returned when the
contextual pipeline throws has a non-empty `contextual_insights` list. -/
theorem c3_counterexample :
    (getResumeImprovements (Except.error "analysis failed")).contextual_insights ≠ [] := by
  decide

/-- Claim C3 (amended): for every exception thrown by the contextual
pipeline, `getResumeImprovements` returns (instead of throwing) the fixed
fallback report: score 60, exactly one strength, exactly one improvement
with priority Medium and category `System`, empty `missing_elements` and
`role_specific_advice`, and `contextual_insights` holding the single fixed
entry `Analysis will be available shortly`. -/
theorem c3_amended_fallback (e : String) :
    getResumeImprovements (Except.error e) = fallbackReport ∧
    fallbackReport.score = 60 ∧
    fallbackReport.strengths = ["Resume submitted for analysis"] ∧
    fallbackReport.improvements =
      [{ priority := .Medium
         suggestion := "AI analysis is temporarily unavailable. Please try again later."
         category := "System" }] ∧
    fallbackReport.missing_elements = [] ∧
    fallbackReport.role_specific_advice = [] ∧
    fallbackReport.contextual_insights = ["Analysis will be available shortly"] :=
  ⟨rfl, rfl, rfl, rfl, rfl, rfl, rfl⟩

/-- Witness: the C3 fallback at a concrete thrown error. -/
theorem c3_witness :
    getResumeImprovements (Except.error "pipeline threw") = fallbackReport :=
  (c3_amended_fallback "pipeline threw").1

/-- Claim C5: for every text whose whitespace-normalized form has length
below 50, `predictFromText` fails with an error and issues no network
request, for every behaviour of the remote endpoint. -/
theorem c5_short_text_no_request (text : String) (server : PredOutcome)
    (h : (cleanText text).length < 50) :
    predictFromText text server =
      (Except.error "Text prediction failed: Please provide at least 50 characters of resume text.", 0) := by
  unfold predictFromText
  simp [h]

/-- Witness: a 27-character text is rejected locally with zero requests,
whatever the server would have answered. -/
theorem c5_witness :
    (cleanText "Jane Doe, software engineer").length < 50 ∧
    predictFromText "Jane Doe, software engineer"
        (.ok { predicted_role := "Software Engineer", confidence := 9 / 10,
               processed_text_length := 27 }) =
      (Except.error "Text prediction failed: Please provide at least 50 characters of resume text.", 0) :=
  ⟨by decide, c5_short_text_no_request _ _ (by decide)⟩

/-- Claim C6: `validateFile` returns `invalid file type` whenever the
lower-cased name does not end in `.pdf`, regardless of size (the extension
check precedes the size checks); for a `.pdf` name it returns `empty file`
at size 0, `size exceeds limit` above 10,485,760 bytes, and valid
otherwise. -/
theorem c6_validateFile_rules (name : String) (size : Nat) :
    (strEndsWith (jsToLower name) ".pdf" = false →
      validateFile name size =
        { isValid := false
          error := some "Invalid file type. Please upload one of: .pdf" }) ∧
    (strEndsWith (jsToLower name) ".pdf" = true →
      (size = 0 →
        validateFile name size =
          { isValid := false, error := some "Empty file detected" }) ∧
      (10485760 < size →
        validateFile name size =
          { isValid := false, error := some "File size exceeds 10MB limit" }) ∧
      (0 < size → size ≤ 10485760 →
        validateFile name size = { isValid := true, error := none })) := by
  constructor
  · intro h
    simp only [validateFile, h, List.any_cons, List.any_nil, Bool.or_false,
      Bool.not_false, if_true]
    rfl
  · intro h
    refine ⟨?_, ?_, ?_⟩
    · intro h0
      subst h0
      simp [validateFile, h]
    · intro hgt
      unfold validateFile
      simp only [List.any_cons, List.any_nil, Bool.or_false, h]
      rw [if_neg (by simp), if_pos (by omega)]
    · intro hpos hle
      unfold validateFile
      simp only [List.any_cons, List.any_nil, Bool.or_false, h]
      rw [if_neg (by simp), if_neg (by omega), if_neg (by omega)]

/-- Witness: the four C6 cases at concrete file descriptors. -/
theorem c6_witness :
    validateFile "resume.docx" 4096 =
      { isValid := false
        error := some "Invalid file type. Please upload one of: .pdf" } ∧
    validateFile "Resume.PDF" 0 =
      { isValid := false, error := some "Empty file detected" } ∧
    validateFile "resume.pdf" 10485761 =
      { isValid := false, error := some "File size exceeds 10MB limit" } ∧
    validateFile "resume.pdf" 4096 = { isValid := true, error := none } :=
  ⟨(c6_validateFile_rules "resume.docx" 4096).1 (by decide),
   ((c6_validateFile_rules "Resume.PDF" 0).2 (by decide)).1 rfl,
   ((c6_validateFile_rules "resume.pdf" 10485761).2 (by decide)).2.1 (by omega),
   ((c6_validateFile_rules "resume.pdf" 4096).2 (by decide)).2.2 (by omega) (by omega)⟩

/-- Claim C7: `getRoleSpecificSkills` substring-matches the lower-cased
role against the bucket keys, returns the `software` vocabulary when no
key matches, always returns one of the six vocabularies, and resolves
`Senior Data Scientist` to the `data` vocabulary. -/
theorem c7_role_buckets :
    (∀ role, (∀ kv ∈ roleSkillMap, containsSub (jsToLower role) kv.1 = false) →
      getRoleSpecificSkills role = softwareSkills) ∧
    (∀ role, getRoleSpecificSkills role ∈ roleSkillMap.map Prod.snd) ∧
    getRoleSpecificSkills "Senior Data Scientist" = dataSkills := by
  refine ⟨?_, ?_, ?_⟩
  · intro role h
    have hnone : roleSkillMap.find? (fun kv => containsSub (jsToLower role) kv.1) = none := by
      apply List.find?_eq_none.mpr
      intro kv hkv
      simp [h kv hkv]
    simp only [getRoleSpecificSkills]
    rw [hnone]
  · intro role
    simp only [getRoleSpecificSkills]
    cases hf : roleSkillMap.find? (fun kv => containsSub (jsToLower role) kv.1) with
    | none =>
      exact List.mem_map_of_mem Prod.snd
        (show ("software", softwareSkills) ∈ roleSkillMap by decide)
    | some kv =>
      exact List.mem_map_of_mem Prod.snd (List.mem_of_find?_eq_some hf)
  · decide

/-- Witness: no bucket key occurs in `ceo`, so the default `software`
vocabulary is returned. -/
theorem c7_witness :
    (∀ kv ∈ roleSkillMap, containsSub (jsToLower "CEO") kv.1 = false) ∧
    getRoleSpecificSkills "CEO" = softwareSkills :=
  ⟨by decide, c7_role_buckets.1 "CEO" (by decide)⟩

/-- Claim C2: for every model, prompt and endpoint behaviour:
(1) all-503 responses give exactly 2 requests, a 3000ms delay between them
(3000ms times the attempt number), then `null` — never a third request;
(2) a first-attempt non-success status other than 503 gives `null` after a
single request; (3) the same on the second attempt after one 503 retry;
(4) transport-level exceptions are retried exactly once more after a fixed
1500ms delay before `null`. -/
theorem c2_retry_policy (model prompt : String) (resp : Nat → HFResponse) :
    ((∀ a, resp a = .status 503) →
      callHuggingFaceAPI model prompt resp =
        (none, [.request, .delay 3000, .request, .delay 6000]) ∧
      (callHuggingFaceAPI model prompt resp).2.count .request = 2) ∧
    (∀ code, code ≠ 503 → resp 0 = .status code →
      callHuggingFaceAPI model prompt resp = (none, [.request])) ∧
    (∀ code, code ≠ 503 → resp 0 = .status 503 → resp 1 = .status code →
      callHuggingFaceAPI model prompt resp =
        (none, [.request, .delay 3000, .request])) ∧
    (resp 0 = .exn → resp 1 = .exn →
      callHuggingFaceAPI model prompt resp =
        (none, [.request, .delay 1500, .request])) := by
  refine ⟨?_, ?_, ?_, ?_⟩
  · intro h
    have heq : callHuggingFaceAPI model prompt resp =
        (none, [.request, .delay 3000, .request, .delay 6000]) := by
      simp [callHuggingFaceAPI, hfLoop, h 0, h 1]
    exact ⟨heq, by rw [heq]; rfl⟩
  · intro code hne h0
    simp [callHuggingFaceAPI, hfLoop, h0, hne]
  · intro code hne h0 h1
    simp [callHuggingFaceAPI, hfLoop, h0, h1, hne]
  · intro h0 h1
    simp [callHuggingFaceAPI, hfLoop, h0, h1]

/-- Witness: the C2 scenarios at concrete response streams. -/
theorem c2_witness :
    callHuggingFaceAPI "microsoft/DialoGPT-large" "p" (fun _ => .status 503) =
      (none, [.request, .delay 3000, .request, .delay 6000]) ∧
    callHuggingFaceAPI "microsoft/DialoGPT-large" "p" (fun _ => .status 404) =
      (none, [.request]) ∧
    callHuggingFaceAPI "microsoft/DialoGPT-large" "p"
        (fun n => if n = 0 then .status 503 else .status 400) =
      (none, [.request, .delay 3000, .request]) ∧
    callHuggingFaceAPI "microsoft/DialoGPT-large" "p" (fun _ => .exn) =
      (none, [.request, .delay 1500, .request]) :=
  ⟨((c2_retry_policy _ _ _).1 (fun _ => rfl)).1,
   (c2_retry_policy _ _ _).2.1 404 (by decide) rfl,
   (c2_retry_policy _ _ _).2.2.1 400 (by decide) rfl rfl,
   (c2_retry_policy _ _ _).2.2.2 rfl rfl⟩

/-- The scoring rule exactly as the specification words it: base 50, plus
8 points per role-relevant matched skill capped at 30, plus 15/10/5 by
experience level, plus the three pattern bonuses, the total clamped to
`[0, 100]`. -/
def specContextualScore (text role : String) (skills : List String)
    (experienceLevel : String) : Int :=
  let matched := (skills.filter
    (fun skill => (getRoleSpecificSkills role).contains skill)).length
  max 0 (min ((50 : Int) + min (8 * matched) 30
    + (if experienceLevel = "Senior-level" then 15
       else if experienceLevel = "Mid-level" then 10 else 5)
    + (if reTest false quantScoreAlts text then 10 else 0)
    + (if reTest false leadScoreAlts text then 8 else 0)
    + (if reTest false eduScoreAlts text then 5 else 0)) 100)

/-- Claim C4: `calculateContextualScore` computes exactly the
specification's additive clamped formula, and the result always lies in
`[0, 100]`. -/
theorem c4_score_formula (text role : String) (skills : List String)
    (experienceLevel : String) :
    ((calculateContextualScore text role skills experienceLevel : Nat) : Int) =
      specContextualScore text role skills experienceLevel ∧
    0 ≤ specContextualScore text role skills experienceLevel ∧
    specContextualScore text role skills experienceLevel ≤ 100 := by
  unfold calculateContextualScore specContextualScore
  split_ifs <;> push_cast <;> omega

/-- Witness: the C4 formula at a concrete input. -/
theorem c4_witness :
    ((calculateContextualScore "increased sales 10x, python developer"
        "Backend Developer" ["python", "api"] "Mid-level" : Nat) : Int) =
      specContextualScore "increased sales 10x, python developer"
        "Backend Developer" ["python", "api"] "Mid-level" :=
  (c4_score_formula _ _ _ _).1

/-- Claim C8: every list field of the report built by
`analyzeResumeContextually` is duplicate-free (improvements deduplicated
by suggestion text) and respects its hard cap, for every text, role and
NLP-results object. -/
theorem c8_report_caps_nodup (resumeText predictedRole : String)
    (nlpResults : NLPResults) :
    (analyzeResumeContextually resumeText predictedRole nlpResults).strengths.Nodup ∧
    (analyzeResumeContextually resumeText predictedRole nlpResults).strengths.length ≤ 4 ∧
    ((analyzeResumeContextually resumeText predictedRole nlpResults).improvements.map
      Improvement.suggestion).Nodup ∧
    (analyzeResumeContextually resumeText predictedRole nlpResults).improvements.Nodup ∧
    (analyzeResumeContextually resumeText predictedRole nlpResults).improvements.length ≤ 5 ∧
    (analyzeResumeContextually resumeText predictedRole nlpResults).missing_elements.Nodup ∧
    (analyzeResumeContextually resumeText predictedRole nlpResults).missing_elements.length ≤ 4 ∧
    (analyzeResumeContextually resumeText predictedRole nlpResults).role_specific_advice.Nodup ∧
    (analyzeResumeContextually resumeText predictedRole nlpResults).role_specific_advice.length ≤ 3 ∧
    (analyzeResumeContextually resumeText predictedRole nlpResults).contextual_insights.Nodup ∧
    (analyzeResumeContextually resumeText predictedRole nlpResults).contextual_insights.length ≤ 3 := by
  simp only [analyzeResumeContextually]
  exact ⟨strengths_nodup _ _ _ _, strengths_len_le _ _ _ _,
    targeted_improvements_sugg_nodup _ _ _ _, targeted_improvements_nodup _ _ _ _,
    targeted_improvements_len_le _ _ _ _,
    missing_nodup _ _ _, missing_len_le _ _ _,
    advice_nodup _ _ _ _, advice_len_le _ _ _ _,
    insights_nodup _ _ _ _, insights_len_le _ _ _ _⟩

/-- Witness: the C8 caps at a concrete report. -/
theorem c8_witness :
    (analyzeResumeContextually "built and deployed a python api, increased throughput by 40%"
      "Software Engineer" emptyNLPResults).improvements.length ≤ 5 :=
  (c8_report_caps_nodup _ _ _).2.2.2.2.1

theorem dedup_take_len_le {α : Type} [DecidableEq α] (l : List α) (n m : Nat)
    (h : l.length ≤ m) : ((dedupFirst l).take n).length ≤ m := by
  have h1 := length_take_le_length (dedupFirst l) n
  have h2 := length_dedupFirst_le l
  omega

theorem dedup_filter_take_len_le {α : Type} [DecidableEq α] (l : List α)
    (p : α → Bool) (n m : Nat) (h : l.length ≤ m) :
    (((dedupFirst l).filter p).take n).length ≤ m := by
  have h1 := length_take_le_length ((dedupFirst l).filter p) n
  have h2 := List.length_filter_le p (dedupFirst l)
  have h3 := length_dedupFirst_le l
  omega

theorem empty_string_isEmpty : ("".isEmpty) = true := rfl

/-- With the all-empty NLP results, only the skill sentence and the
achievements sentence can enter the strengths. -/
theorem strengths_len_of_empty (text : String) (skills : List String)
    (role : String) :
    (generateContextualStrengths text skills emptyNLPResults role).length ≤ 2 := by
  unfold generateContextualStrengths
  apply dedup_filter_take_len_le
  simp only [emptyNLPResults]
  split_ifs <;> simp_all [empty_string_isEmpty]

/-- With the all-empty NLP results, the experience-level insight is
absent. -/
theorem insights_len_of_empty (role : String) (skills : List String)
    (resumeText : String) :
    (generateContextualInsights emptyNLPResults role skills resumeText).length ≤ 2 := by
  unfold generateContextualInsights
  apply dedup_take_len_le
  simp only [emptyNLPResults]
  split_ifs <;> simp_all [empty_string_isEmpty]

/-- With an empty experience level, the Entry-level advice is absent. -/
theorem advice_len_of_empty_level (text role : String) (skills : List String) :
    (generateRoleSpecificAdvice text role skills "").length ≤ 2 := by
  unfold generateRoleSpecificAdvice
  apply dedup_take_len_le
  split_ifs <;> simp_all

/-- Claim C9: if every inference call returns null, `performNLPAnalysis`
returns the initial all-empty results object, and the pipeline still
produces a well-formed report from regex-derived signals alone, each empty
piece contributing nothing to its field: the score stays clamped, the
strengths hold at most the two regex-derived sentences, the insights at
most the two non-NLP sentences, and the advice at most the two
role-derived entries. -/
theorem c9_null_inference_pipeline (resumeText predictedRole : String) :
    performNLPAnalysis resumeText predictedRole none none none none = emptyNLPResults ∧
    (analyzeResumeContextually resumeText predictedRole emptyNLPResults).score ≤ 100 ∧
    (analyzeResumeContextually resumeText predictedRole emptyNLPResults).strengths.length ≤ 2 ∧
    (analyzeResumeContextually resumeText predictedRole emptyNLPResults).contextual_insights.length ≤ 2 ∧
    (analyzeResumeContextually resumeText predictedRole emptyNLPResults).role_specific_advice.length ≤ 2 := by
  refine ⟨rfl, ?_, ?_, ?_, ?_⟩
  · simp only [analyzeResumeContextually]
    exact score_le_100 _ _ _ _
  · simp only [analyzeResumeContextually]
    exact strengths_len_of_empty _ _ _
  · simp only [analyzeResumeContextually]
    exact insights_len_of_empty _ _ _
  · simp only [analyzeResumeContextually]
    exact advice_len_of_empty_level _ _ _

/-- Witness: the C9 facts at a concrete submission. -/
theorem c9_witness :
    performNLPAnalysis "python developer resume" "Software Engineer"
      none none none none = emptyNLPResults ∧
    (analyzeResumeContextually "python developer resume" "Software Engineer"
      emptyNLPResults).score ≤ 100 :=
  ⟨(c9_null_inference_pipeline "python developer resume" "Software Engineer").1,
   (c9_null_inference_pipeline "python developer resume" "Software Engineer").2.1⟩

/-- Claim C10: the experience bonus is at least 5 in every branch, so the
score is always at least `50 + 5 = 55`; together with the upper clamp the
reachable range is `[55, 100]`, both endpoints being attained. -/
theorem c10_score_range :
    (∀ text role skills experienceLevel,
      55 ≤ calculateContextualScore text role skills experienceLevel ∧
      calculateContextualScore text role skills experienceLevel ≤ 100) ∧
    calculateContextualScore "zzz" "X" [] "" = 55 ∧
    calculateContextualScore "increased 10% lead bachelor" "Software Engineer"
      ["javascript", "python", "java", "react"] "Senior-level" = 100 := by
  refine ⟨?_, by decide, by decide⟩
  intro text role skills experienceLevel
  simp only [calculateContextualScore]
  constructor
  · split_ifs <;> omega
  · exact Nat.min_le_right _ _

/-- Witness: the C10 bounds at a concrete input. -/
theorem c10_witness :
    55 ≤ calculateContextualScore "resume text" "Data Analyst" [] "" ∧
    calculateContextualScore "resume text" "Data Analyst" [] "" ≤ 100 :=
  c10_score_range.1 "resume text" "Data Analyst" [] ""

end Screener
